import Mathlib

/-!
# MouseTracker (src/mouseTracker.js): a shallow embedding

The plugin keeps one module-level object `DEFAULTS`, one browser storage
(`window.localStorage`) and, per constructed tracker, the fields
`actualDistance`, `firstMove` and `lastMousePosition`.

Numbers.  JavaScript numbers are idealised as the elements of a linearly
ordered field `R` (take `ℚ` to evaluate, `ℝ` for the real-number reading), so
`+`, `-`, `*`, `/` and `Math.pow(_, 2)` are exact.  The three builtins whose
result is not a field operation are parameters of the embedding, collected in
`Host`: `Math.sqrt`, the number-to-string conversion that the storage applies
to a stored value, and `parseFloat`.

Rounding.  Two claims are decided by the rounding of binary64 arithmetic, which
a field does not have.  For these the file also gives the binary64 reading: the
type `F64` with correctly rounded operations, the conversion in binary64, and a
host `binary64Host` whose `Math.sqrt` rounds as binary64 does.

Callbacks.  A function value is identified by a number; invoking it appends the
function and its two arguments to the log `Page.calls` and has no other effect
on the tracker.
-/

namespace MouseTrackerJS

/-! ## Values -/

/-- A position `{x: ..., y: ...}` in page coordinates. -/
structure Point (R : Type) where
  x : R
  y : R

/-- The JavaScript values that a configuration entry can hold. -/
inductive JSVal (R : Type) where
  | undefined : JSVal R
  | null : JSVal R
  | bool (b : Bool) : JSVal R
  | num (r : R) : JSVal R
  | str (s : String) : JSVal R
  | func (id : Nat) : JSVal R

/-- The errors a handler of the plugin can throw: `new Error("Distance units not correct")`
and the `TypeError` of calling a value that is not a function. -/
inductive JSError where
  | distanceUnitsNotCorrect : JSError
  | notAFunction : JSError
  deriving DecidableEq, Repr

/-- The builtins of the host that are not field operations. -/
structure Host (R : Type) where
  /-- The function `Math.sqrt`. -/
  sqrt : R → R
  /-- The string a number is converted to when it is stored or passed to `parseFloat`. -/
  numberToString : R → String
  /-- The global `parseFloat`, on strings. -/
  parseFloat : String → R

/-- A JavaScript object, read by property name; a missing property reads `undefined`. -/
abbrev JSObject (R : Type) := String → JSVal R

/-- The content of `window.localStorage`: the string stored under each key, if any. -/
abbrev Storage := String → Option String

section Model

variable {R : Type} [LinearOrderedField R]

/-- The condition of `if (v)`. -/
def JSVal.truthy : JSVal R → Bool
  | .undefined => false
  | .null => false
  | .bool b => b
  | .num r => decide (r ≠ 0)
  | .str s => decide (s ≠ "")
  | .func _ => true

/-- The assignment `o[k] = v`. -/
def JSObject.set (o : JSObject R) (k : String) (v : JSVal R) : JSObject R :=
  fun i => if i = k then v else o i

/-! ## Module-level constants -/

/-- The object literal `DEFAULTS` as the script creates it (lines 10-14). -/
def DEFAULTS : JSObject R := fun k =>
  if k = "remember_user" then .bool false
  else if k = "onDistanceChanged" then .bool false
  else if k = "distanceUnits" then .str "mm"
  else .undefined

/-- The constant `STORAGE_PREFIX` (line 19). -/
def STORAGE_PREFIX : String := "mouseTracker-"

/-! ## State -/

/-- The mutable fields of a `TrackingManager`. -/
structure TrackingManager (R : Type) where
  firstMove : Bool
  lastMousePosition : Point R

/-- The mutable fields of one `MouseTracker` instance.  Its `config` field is not
here: it is bound to the module-level object, see `World.config`. -/
structure MouseTracker (R : Type) where
  actualDistance : R
  trackingManager : TrackingManager R

/-- What all trackers of a page share: the object `DEFAULTS`, the storage, and the
log of callback invocations (function, first argument, second argument). -/
structure Page (R : Type) where
  DEFAULTS : JSObject R
  localStorage : Storage
  calls : List (Nat × R × R)

/-- A tracker together with the page it lives on. -/
structure World (R : Type) where
  page : Page R
  self : MouseTracker R

/-- The field `_this.config`: line 58, `_this.config = DEFAULTS`, binds it to the
module-level object itself. -/
def World.config (w : World R) : JSObject R := w.page.DEFAULTS

/-- A page right after the script has run: pristine `DEFAULTS`, given storage. -/
def Page.load (storage : Storage) : Page R :=
  { DEFAULTS := MouseTrackerJS.DEFAULTS, localStorage := storage, calls := [] }

/-! ## Utility -/

/-- The method `Utility.computeDistance` (lines 289-293). -/
def Utility.computeDistance (H : Host R) (pointX pointY : Point R) : R :=
  H.sqrt (H.parseFloat (H.numberToString
    ((pointX.x - pointY.x) ^ 2 + (pointX.y - pointY.y) ^ 2)))

/-- The method `Utility.convertPixelsToDistanceUnits` (lines 301-321); the `switch`
compares with strict equality, so only the two strings select a ratio. -/
def Utility.convertPixelsToDistanceUnits (pixels : R) (distanceUnits : JSVal R) :
    Except JSError R :=
  match distanceUnits with
  | .str s =>
    if s = "mm" then .ok (pixels * (2.54 / 96 * 10))
    else if s = "inch" then .ok (pixels * (2.54 / 96 * 10 / 25.4))
    else .error .distanceUnitsNotCorrect
  | _ => .error .distanceUnitsNotCorrect

/-! ## StorageManager -/

/-- The method `StorageManager.setKey` (lines 250-252), called with a number. -/
def StorageManager.setKey (H : Host R) (key : String) (value : R) (ls : Storage) : Storage :=
  fun k => if k = STORAGE_PREFIX ++ key then some (H.numberToString value) else ls k

/-- The method `StorageManager.getKey` (lines 259-262); `none` stands for the boolean
`false` it returns when the key is not set. -/
def StorageManager.getKey (key : String) (ls : Storage) : Option String :=
  ls (STORAGE_PREFIX ++ key)

/-- The method `StorageManager.deleteKey` (lines 268-270). -/
def StorageManager.deleteKey (key : String) (ls : Storage) : Storage :=
  fun k => if k = STORAGE_PREFIX ++ key then none else ls k

/-! ## MouseTracker -/

/-- The method `updateConfig` (lines 93-98): the `for ... in` loop over the properties
of the user configuration, given in enumeration order, assigning each into the
object `_this.config`. -/
def MouseTracker.updateConfig (config : List (String × JSVal R)) (target : JSObject R) :
    JSObject R :=
  config.foldl (fun o kv => o.set kv.1 kv.2) target

/-- The method `init` (lines 70-87).  `trackingManager.init()` only registers the
listener; delivery of events is `mousemove` below. -/
def MouseTracker.init (H : Host R) (config : List (String × JSVal R)) (w : World R) :
    World R :=
  let w1 : World R :=
    { w with page := { w.page with DEFAULTS := MouseTracker.updateConfig config w.config } }
  match w1.config "remember_user" with
  | .bool true =>
    match StorageManager.getKey "distanceTraveled" w1.page.localStorage with
    | some savedDistance =>
      { w1 with self := { w1.self with actualDistance := H.parseFloat savedDistance } }
    | none => w1
  | _ =>
    { w1 with page := { w1.page with
        localStorage := StorageManager.deleteKey "distanceTraveled" w1.page.localStorage } }

/-- The constructor `new MouseTracker(config)` (lines 53-170) on a page. -/
def MouseTracker.new (H : Host R) (config : List (String × JSVal R)) (page : Page R) :
    World R :=
  MouseTracker.init H config
    { page := page
      self := { actualDistance := 0
                trackingManager := { firstMove := false, lastMousePosition := ⟨0, 0⟩ } } }

/-- The method `getActualDistance` (lines 104-109). -/
def MouseTracker.getActualDistance (w : World R) : Except JSError R × World R :=
  (Utility.convertPixelsToDistanceUnits w.self.actualDistance (w.config "distanceUnits"), w)

/-- The method `clearActualDistance` (lines 114-121). -/
def MouseTracker.clearActualDistance (H : Host R) (w : World R) : World R :=
  let w1 : World R := { w with self := { w.self with actualDistance := 0 } }
  if (w1.config "remember_user").truthy then
    { w1 with page := { w1.page with
        localStorage :=
          StorageManager.setKey H "distanceTraveled" w1.self.actualDistance w1.page.localStorage } }
  else w1

/-- The method `trackingManagerDistanceChanged` (lines 127-148).  The state it returns
is the one the handler leaves behind, also when it throws. -/
def MouseTracker.trackingManagerDistanceChanged (H : Host R) (gain : R) (w : World R) :
    Except JSError Unit × World R :=
  let w1 : World R := { w with self := { w.self with actualDistance := w.self.actualDistance + gain } }
  let w2 : World R :=
    if (w1.config "remember_user").truthy then
      { w1 with page := { w1.page with
          localStorage :=
            StorageManager.setKey H "distanceTraveled" w1.self.actualDistance w1.page.localStorage } }
    else w1
  match w2.config "onDistanceChanged" with
  | .bool false => (.ok (), w2)
  | callee =>
    match Utility.convertPixelsToDistanceUnits w2.self.actualDistance (w2.config "distanceUnits") with
    | .error e => (.error e, w2)
    | .ok total =>
      match Utility.convertPixelsToDistanceUnits gain (w2.config "distanceUnits") with
      | .error e => (.error e, w2)
      | .ok delta =>
        match callee with
        | .func f => (.ok (), { w2 with page := { w2.page with calls := w2.page.calls ++ [(f, total, delta)] } })
        | _ => (.error .notAFunction, w2)

/-! ## TrackingManager -/

/-- The method `TrackingManager.handleMouseMove` (lines 216-234) up to its last
statement: the new fields of the tracking manager, and the argument with which
`_this.delegate.distanceChanged` is then called (`none` on the early return). -/
def TrackingManager.handleMouseMove (H : Host R) (event : Point R) (tm : TrackingManager R) :
    TrackingManager R × Option R :=
  let currentMousePosition : Point R := { x := event.x, y := event.y }
  if tm.firstMove = false then
    ({ firstMove := true, lastMousePosition := currentMousePosition }, none)
  else
    let distanceTraveled := Utility.computeDistance H tm.lastMousePosition currentMousePosition
    ({ tm with lastMousePosition := currentMousePosition }, some distanceTraveled)

/-- One `mousemove` event delivered to the tracker: `handleMouseMove`, whose delegate
is `trackingManagerDistanceChanged` (lines 156-161). -/
def mousemove (H : Host R) (event : Point R) (w : World R) : Except JSError Unit × World R :=
  match TrackingManager.handleMouseMove H event w.self.trackingManager with
  | (tm, none) => (.ok (), { w with self := { w.self with trackingManager := tm } })
  | (tm, some gain) =>
    MouseTracker.trackingManagerDistanceChanged H gain
      { w with self := { w.self with trackingManager := tm } }

/-- A sequence of `mousemove` events delivered in order; an exception thrown by one
handler run does not stop the delivery of the next event. -/
def mousemoves (H : Host R) (events : List (Point R)) (w : World R) : World R :=
  events.foldl (fun v e => (mousemove H e v).2) w

/-! ## API -/

/-- The method `API.getDistanceTraveled` (lines 37-39), delegating to `getActualDistance`. -/
def API.getDistanceTraveled (w : World R) : Except JSError R × World R :=
  MouseTracker.getActualDistance w

/-- The method `API.clearDistanceTraveled` (lines 44-46), delegating to `clearActualDistance`. -/
def API.clearDistanceTraveled (H : Host R) (w : World R) : World R :=
  MouseTracker.clearActualDistance H w

end Model

/-! ## A concrete host over `ℚ`, for evaluation -/

/-- Reads a string of decimal digits. -/
def readDigits : List Char → Nat → Option Nat
  | [], acc => some acc
  | c :: cs, acc => if c.isDigit then readDigits cs (10 * acc + (c.toNat - 48)) else none

/-- A host over `ℚ`: the rational square root of Mathlib (exact on squares), numbers
printed as `n` or `n/d`, and strings of digits read back as naturals. -/
def ratHost : Host ℚ where
  sqrt := Rat.sqrt
  numberToString := fun q => toString q
  parseFloat := fun s => ((readDigits s.toList 0).getD 0 : ℕ)

/-- A storage with no key set. -/
def emptyStorage : Storage := fun _ => none

/-- A storage holding a value left by an earlier session. -/
def staleStorage : Storage :=
  fun k => if k = "mouseTracker-distanceTraveled" then some "123" else none

/-- The positions `(0,0), (3,4), (3,4), ...`. -/
def path345 : ℕ → Point ℚ := fun k => if k = 0 then ⟨0, 0⟩ else ⟨3, 4⟩

/-- A tracker constructed with `remember_user: true` on a fresh page with empty storage. -/
def rememberingTracker : World ℚ :=
  MouseTracker.new ratHost [("remember_user", .bool true)] (Page.load emptyStorage)

/-- The tracker `rememberingTracker` after a first `mousemove` to `(0,0)`. -/
def movedTracker : World ℚ := mousemoves ratHost [⟨0, 0⟩] rememberingTracker

/-- A tracker constructed with the function number 7 as `onDistanceChanged`. -/
def callbackTracker : World ℚ :=
  MouseTracker.new ratHost [("onDistanceChanged", .func 7)] (Page.load emptyStorage)

/-- A tracker with a callback and the unit `cm`, which the conversion does not
recognise, remembering the user, after a first `mousemove` to `(0,0)`. -/
def badUnitTracker : World ℚ :=
  mousemoves ratHost [⟨0, 0⟩]
    (MouseTracker.new ratHost
      [("remember_user", .bool true), ("onDistanceChanged", .func 7), ("distanceUnits", .str "cm")]
      (Page.load emptyStorage))

/-- The persisted total as `init` reads it (lines 79-82): the text under the key read
by `parseFloat`, and 0 when the key is not set. -/
def storedTotal {R : Type} [LinearOrderedField R] (H : Host R) (w : World R) : R :=
  match StorageManager.getKey "distanceTraveled" w.page.localStorage with
  | some savedDistance => H.parseFloat savedDistance
  | none => 0

/-- The positions `(0,0), (3,4), (0,8), (0,8), ...`. -/
def path8 : ℕ → Point ℚ :=
  fun k => if k = 0 then ⟨0, 0⟩ else if k = 1 then ⟨3, 4⟩ else ⟨0, 8⟩

/-! ## The binary64 reading of the arithmetic

The numbers of the script are IEEE 754 binary64 values, and every arithmetic
operation rounds its exact result to the nearest such value, ties to even.  The
definitions below give that rounding on finite values, with mantissa and exponent
as integers; the exponent is not bounded, so they agree with binary64 wherever no
result leaves its normal range, and infinities and NaN are not represented. -/

/-- A finite binary64 number, the value `m * 2 ^ e`.  The operations below return 0
as `m = 0, e = 0` and every other value with `2 ^ 52 ≤ |m| < 2 ^ 53`. -/
structure F64 where
  m : ℤ
  e : ℤ
  deriving DecidableEq, Repr

/-- The number of binary digits of `n`, counted with at most `fuel` halvings. -/
def bitLengthAux : ℕ → ℕ → ℕ
  | 0, _ => 0
  | fuel + 1, n => if n = 0 then 0 else bitLengthAux fuel (n / 2) + 1

/-- The number of binary digits of a natural number. -/
def bitLength (n : ℕ) : ℕ := bitLengthAux n n

/-- The quotient `num / (den * 2 ^ t)` as a numerator and a denominator. -/
def scaled (num den : ℕ) (t : ℤ) : ℕ × ℕ :=
  if 0 ≤ t then (num, den * 2 ^ t.toNat) else (num * 2 ^ (-t).toNat, den)

/-- The integer nearest to `n / d`, a tie going to the even one. -/
def nearestEven (n d : ℕ) : ℕ :=
  if d < 2 * (n % d) ∨ (2 * (n % d) = d ∧ (n / d) % 2 = 1) then n / d + 1 else n / d

/-- The binary64 value nearest to `num / den * 2 ^ e`, a tie going to the even
mantissa: the exponent `t` is chosen so that the quotient has 53 binary digits. -/
def F64.round (num : ℤ) (den : ℕ) (e : ℤ) : F64 :=
  if num = 0 ∨ den = 0 then ⟨0, 0⟩
  else
    let a := num.natAbs
    let t0 : ℤ := (bitLength a : ℤ) - (bitLength den : ℤ) - 53
    let t : ℤ := if (scaled a den t0).1 / (scaled a den t0).2 < 2 ^ 53 then t0 else t0 + 1
    let q := nearestEven (scaled a den t).1 (scaled a den t).2
    if q = 2 ^ 53 then ⟨num.sign * 2 ^ 52, t + 1 + e⟩ else ⟨num.sign * q, t + e⟩

/-- The rational value of a binary64 number. -/
def F64.toRat (a : F64) : ℚ := a.m * 2 ^ a.e

/-- An integer literal of the script. -/
def F64.ofNat (n : ℕ) : F64 := F64.round n 1 0

/-- A decimal literal of the script, `digits / 10 ^ places`: `2.54` is `ofDecimal 254 2`. -/
def F64.ofDecimal (digits places : ℕ) : F64 := F64.round digits (10 ^ places) 0

/-- The operator `*` on binary64 values. -/
def F64.mul (a b : F64) : F64 := F64.round (a.m * b.m) 1 (a.e + b.e)

/-- The operator `/` on binary64 values, for a divisor other than 0. -/
def F64.div (a b : F64) : F64 := F64.round (a.m * b.m.sign) b.m.natAbs (a.e - b.e)

/-- The operator `+` on binary64 values. -/
def F64.add (a b : F64) : F64 :=
  F64.round (a.m * 2 ^ (a.e - min a.e b.e).toNat + b.m * 2 ^ (b.e - min a.e b.e).toNat) 1
    (min a.e b.e)

/-- The largest `r + k` with `k < 2 ^ i` whose square is at most `n`, found digit by digit. -/
def isqrtAux (n : ℕ) : ℕ → ℕ → ℕ
  | 0, r => r
  | i + 1, r =>
    if (r + 2 ^ i) * (r + 2 ^ i) ≤ n then isqrtAux n i (r + 2 ^ i) else isqrtAux n i r

/-- The integer square root, rounded down. -/
def isqrt (n : ℕ) : ℕ := isqrtAux n (bitLength n) 0

/-- The function `Math.sqrt` on binary64 values that are at least 0, correctly
rounded: the root of the mantissa is taken with two digits more than the result
keeps, the last of them recording whether the root is inexact. -/
def F64.sqrt (a : F64) : F64 :=
  if a.m ≤ 0 then ⟨0, 0⟩
  else
    let m2 : ℕ := if a.e % 2 = 0 then a.m.toNat else 2 * a.m.toNat
    let e2 : ℤ := if a.e % 2 = 0 then a.e else a.e - 1
    let q := isqrt (m2 * 2 ^ 54)
    F64.round ((2 * q + (if q * q = m2 * 2 ^ 54 then 0 else 1) : ℕ) : ℤ) 1 (e2 / 2 - 28)

/-- The method `Utility.convertPixelsToDistanceUnits` (lines 301-321) in binary64:
the ratio `2.54 / 96 * 10` (divided by `25.4` for inches) and the product
`pixels * pxToDistanceUnitsRatio`, each operation rounded. -/
def F64.convertPixelsToDistanceUnits (pixels : F64) (distanceUnits : JSVal F64) :
    Except JSError F64 :=
  match distanceUnits with
  | .str s =>
    if s = "mm" then
      .ok (F64.mul pixels
        (F64.mul (F64.div (F64.ofDecimal 254 2) (F64.ofNat 96)) (F64.ofNat 10)))
    else if s = "inch" then
      .ok (F64.mul pixels
        (F64.div (F64.mul (F64.div (F64.ofDecimal 254 2) (F64.ofNat 96)) (F64.ofNat 10))
          (F64.ofDecimal 254 1)))
    else .error .distanceUnitsNotCorrect
  | _ => .error .distanceUnitsNotCorrect

/-- A host whose `Math.sqrt` is the binary64 one: the argument, a rational, is
rounded to binary64 and its root taken there.  Texts are those of `ratHost`. -/
def binary64Host : Host ℚ where
  sqrt := fun q => (F64.sqrt (F64.round q.num q.den 0)).toRat
  numberToString := ratHost.numberToString
  parseFloat := ratHost.parseFloat

/-- The positions `(0,0), (1,1), (4,4), (4,4), ...`, all on one line. -/
def pathDiag : ℕ → Point ℚ :=
  fun k => if k = 0 then ⟨0, 0⟩ else if k = 1 then ⟨1, 1⟩ else ⟨4, 4⟩

/-! ## Effects of the handlers -/

section Effects

variable {R : Type} [LinearOrderedField R]

/-- What `trackingManagerDistanceChanged` does to the tracker: the gain is added to
`actualDistance`, whether or not the handler throws afterwards. -/
theorem distanceChanged_self (H : Host R) (gain : R) (w : World R) :
    (MouseTracker.trackingManagerDistanceChanged H gain w).2.self =
      { w.self with actualDistance := w.self.actualDistance + gain } := by
  unfold MouseTracker.trackingManagerDistanceChanged
  simp only
  repeat (first | rfl | split)

/-- The handler `trackingManagerDistanceChanged` does not assign to the configuration. -/
theorem distanceChanged_DEFAULTS (H : Host R) (gain : R) (w : World R) :
    (MouseTracker.trackingManagerDistanceChanged H gain w).2.page.DEFAULTS = w.page.DEFAULTS := by
  unfold MouseTracker.trackingManagerDistanceChanged
  simp only
  repeat (first | rfl | split)

/-- The storage after `trackingManagerDistanceChanged`. -/
theorem distanceChanged_localStorage (H : Host R) (gain : R) (w : World R) :
    (MouseTracker.trackingManagerDistanceChanged H gain w).2.page.localStorage =
      if (w.config "remember_user").truthy then
        StorageManager.setKey H "distanceTraveled" (w.self.actualDistance + gain) w.page.localStorage
      else w.page.localStorage := by
  unfold MouseTracker.trackingManagerDistanceChanged World.config
  simp only
  repeat (first | rfl | split)

/-- The first `mousemove` of a tracker only records the position. -/
theorem mousemove_first (H : Host R) (e : Point R) (w : World R)
    (h : w.self.trackingManager.firstMove = false) :
    mousemove H e w =
      (.ok (), { w with self := { w.self with
        trackingManager := { firstMove := true, lastMousePosition := e } } }) := by
  simp [mousemove, TrackingManager.handleMouseMove, h]

/-- A later `mousemove` runs `trackingManagerDistanceChanged` on the distance from the
last position, after the position has been recorded. -/
theorem mousemove_later (H : Host R) (e : Point R) (w : World R)
    (h : w.self.trackingManager.firstMove = true) :
    mousemove H e w =
      MouseTracker.trackingManagerDistanceChanged H
        (Utility.computeDistance H w.self.trackingManager.lastMousePosition e)
        { w with self := { w.self with
          trackingManager := { w.self.trackingManager with lastMousePosition := e } } } := by
  simp [mousemove, TrackingManager.handleMouseMove, h]

/-- Delivering one more event after a sequence. -/
theorem mousemoves_snoc (H : Host R) (es : List (Point R)) (e : Point R) (w : World R) :
    mousemoves H (es ++ [e]) w = (mousemove H e (mousemoves H es w)).2 := by
  simp [mousemoves, List.foldl_append]

/-- The events `p 0, ..., p (k + 1)` are the events `p 0, ..., p k` followed by `p (k + 1)`. -/
theorem mousemoves_range_succ (H : Host R) (p : ℕ → Point R) (k : ℕ) (w : World R) :
    mousemoves H ((List.range (k + 2)).map p) w =
      (mousemove H (p (k + 1)) (mousemoves H ((List.range (k + 1)).map p) w)).2 := by
  rw [List.range_succ, List.map_append, List.map_singleton, mousemoves_snoc]

/-- The tracker after the events `p 0, ..., p k`, delivered to a tracker that has not
seen a move yet: the flag is set, the last position is `p k`, and the total is the
starting total plus the distances between consecutive positions. -/
theorem self_after_moves (H : Host R) (p : ℕ → Point R) (w : World R)
    (h : w.self.trackingManager.firstMove = false) (k : ℕ) :
    (mousemoves H ((List.range (k + 1)).map p) w).self =
      { actualDistance := w.self.actualDistance +
          ∑ i ∈ Finset.range k, Utility.computeDistance H (p i) (p (i + 1))
        trackingManager := { firstMove := true, lastMousePosition := p k } } := by
  induction k with
  | zero =>
    show (List.foldl (fun v e => (mousemove H e v).2) w [p 0]).self = _
    simp [mousemove_first H (p 0) w h]
  | succ k ih =>
    rw [mousemoves_range_succ, mousemove_later _ _ _ (by rw [ih]), distanceChanged_self, ih,
      Finset.sum_range_succ]
    simp [add_assoc]

/-- Construction leaves the new tracker without a first move. -/
theorem new_firstMove (H : Host R) (config : List (String × JSVal R)) (page : Page R) :
    (MouseTracker.new H config page).self.trackingManager.firstMove = false := by
  unfold MouseTracker.new MouseTracker.init
  simp only
  repeat (first | rfl | split)

/-- The configuration a new tracker runs with: the user configuration assigned into
the object `DEFAULTS` as the page holds it at that moment. -/
theorem new_config (H : Host R) (config : List (String × JSVal R)) (page : Page R) :
    (MouseTracker.new H config page).config = MouseTracker.updateConfig config page.DEFAULTS := by
  unfold MouseTracker.new MouseTracker.init World.config
  simp only
  repeat (first | rfl | split)

/-- What `clearActualDistance` does to the tracker: only the total changes, to 0. -/
theorem clear_self (H : Host R) (w : World R) :
    (MouseTracker.clearActualDistance H w).self = { w.self with actualDistance := 0 } := by
  unfold MouseTracker.clearActualDistance
  simp only
  split <;> rfl

/-- The method `clearActualDistance` does not assign to the configuration. -/
theorem clear_DEFAULTS (H : Host R) (w : World R) :
    (MouseTracker.clearActualDistance H w).page.DEFAULTS = w.page.DEFAULTS := by
  unfold MouseTracker.clearActualDistance
  simp only
  split <;> rfl

/-- The storage after `clearActualDistance`. -/
theorem clear_localStorage (H : Host R) (w : World R) :
    (MouseTracker.clearActualDistance H w).page.localStorage =
      if (w.config "remember_user").truthy then
        StorageManager.setKey H "distanceTraveled" 0 w.page.localStorage
      else w.page.localStorage := by
  unfold MouseTracker.clearActualDistance World.config
  simp only
  split <;> rfl

/-- The key under which the total is stored. -/
theorem storage_key : STORAGE_PREFIX ++ "distanceTraveled" = "mouseTracker-distanceTraveled" := by
  decide

/-- A recognised unit converts by multiplication with a fixed ratio. -/
theorem convert_recognised (u : JSVal R) (hu : u = .str "mm" ∨ u = .str "inch") :
    ∃ r : R, ∀ x : R, Utility.convertPixelsToDistanceUnits x u = .ok (x * r) := by
  have hne : ¬ ("inch" = "mm") := by decide
  rcases hu with rfl | rfl
  · exact ⟨2.54 / 96 * 10, fun x => by simp [Utility.convertPixelsToDistanceUnits]⟩
  · exact ⟨2.54 / 96 * 10 / 25.4, fun x => by simp [Utility.convertPixelsToDistanceUnits, hne]⟩

/-- Construction when the merged configuration has `remember_user` equal to `true`:
the total is the stored text read by `parseFloat`, or 0 when the key is not set. -/
theorem new_remembering (H : Host R) (config : List (String × JSVal R)) (page : Page R)
    (h : (MouseTracker.new H config page).config "remember_user" = .bool true) :
    (MouseTracker.new H config page).self.actualDistance =
      match StorageManager.getKey "distanceTraveled" page.localStorage with
      | some savedDistance => H.parseFloat savedDistance
      | none => 0 := by
  rw [new_config] at h
  unfold MouseTracker.new MouseTracker.init
  simp only [World.config, h]
  cases StorageManager.getKey "distanceTraveled" page.localStorage <;> rfl

/-- Construction when the merged configuration has `remember_user` different from
`true`: the total is 0 and the key is deleted. -/
theorem new_not_remembering (H : Host R) (config : List (String × JSVal R)) (page : Page R)
    (h : (MouseTracker.new H config page).config "remember_user" ≠ .bool true) :
    (MouseTracker.new H config page).self.actualDistance = 0 ∧
    (MouseTracker.new H config page).page.localStorage =
      StorageManager.deleteKey "distanceTraveled" page.localStorage := by
  rw [new_config] at h
  unfold MouseTracker.new MouseTracker.init
  simp only [World.config]
  simp only [h, and_self]

/-- The callback log after `trackingManagerDistanceChanged` when a function is
configured and the unit converts with ratio `r`: one more entry, holding the new
total and the gain, both converted. -/
theorem distanceChanged_calls (H : Host R) (gain : R) (w : World R) (f : Nat) (r : R)
    (hcb : w.config "onDistanceChanged" = .func f)
    (hr : ∀ x : R, Utility.convertPixelsToDistanceUnits x (w.config "distanceUnits") = .ok (x * r)) :
    (MouseTracker.trackingManagerDistanceChanged H gain w).2.page.calls =
      w.page.calls ++ [(f, (w.self.actualDistance + gain) * r, gain * r)] := by
  simp only [World.config] at hcb hr
  unfold MouseTracker.trackingManagerDistanceChanged
  simp only [World.config]
  split_ifs <;> simp [hcb, hr]

/-- A `mousemove` does not assign to the configuration. -/
theorem mousemove_DEFAULTS (H : Host R) (e : Point R) (w : World R) :
    (mousemove H e w).2.page.DEFAULTS = w.page.DEFAULTS := by
  cases h : w.self.trackingManager.firstMove
  · rw [mousemove_first H e w h]
  · rw [mousemove_later H e w h, distanceChanged_DEFAULTS]

/-- A sequence of `mousemove` events does not assign to the configuration. -/
theorem mousemoves_DEFAULTS (H : Host R) (es : List (Point R)) (w : World R) :
    (mousemoves H es w).page.DEFAULTS = w.page.DEFAULTS := by
  induction es using List.reverseRecOn with
  | nil => rfl
  | append_singleton es e ih => rw [mousemoves_snoc, mousemove_DEFAULTS, ih]

/-- The callback log after the events `p 0, ..., p k` on a tracker that has not seen a
move yet, with a function configured and a unit that converts with ratio `r`. -/
theorem calls_after_moves (H : Host R) (p : ℕ → Point R) (w : World R) (f : Nat) (r : R)
    (hf : w.self.trackingManager.firstMove = false)
    (hcb : w.config "onDistanceChanged" = .func f)
    (hr : ∀ x : R, Utility.convertPixelsToDistanceUnits x (w.config "distanceUnits") = .ok (x * r))
    (k : ℕ) :
    (mousemoves H ((List.range (k + 1)).map p) w).page.calls =
      w.page.calls ++ (List.range k).map (fun i =>
        (f, (mousemoves H ((List.range (i + 2)).map p) w).self.actualDistance * r,
          Utility.computeDistance H (p i) (p (i + 1)) * r)) := by
  induction k with
  | zero =>
    show (List.foldl (fun v e => (mousemove H e v).2) w [p 0]).page.calls = _
    simp [mousemove_first H (p 0) w hf]
  | succ k ih =>
    have hs := self_after_moves H p w hf k
    have hlater : (mousemoves H ((List.range (k + 1)).map p) w).self.trackingManager.firstMove
        = true := by rw [hs]
    have hs1 : (mousemoves H ((List.range (k + 2)).map p) w).self = _ :=
      self_after_moves H p w hf (k + 1)
    rw [mousemoves_range_succ, mousemove_later _ _ _ hlater,
      distanceChanged_calls H _ _ f r
        (by
          show (mousemoves H _ w).page.DEFAULTS "onDistanceChanged" = _
          rw [mousemoves_DEFAULTS]; exact hcb)
        (fun x => by
          show Utility.convertPixelsToDistanceUnits x
            ((mousemoves H _ w).page.DEFAULTS "distanceUnits") = _
          rw [mousemoves_DEFAULTS]; exact hr x),
      ih]
    simp only [hs]
    rw [List.range_succ k, List.map_append, List.map_singleton, List.append_assoc, hs1,
      Finset.sum_range_succ, add_assoc]

/-- The distance from a point to itself is what the host makes of 0. -/
theorem computeDistance_self (H : Host R) (a : Point R) :
    Utility.computeDistance H a a = H.sqrt (H.parseFloat (H.numberToString 0)) := by
  simp [Utility.computeDistance]

/-- An unrecognised unit makes the conversion throw, whatever the number. -/
theorem convert_unrecognised (x : R) (u : JSVal R) (h1 : u ≠ .str "mm") (h2 : u ≠ .str "inch") :
    Utility.convertPixelsToDistanceUnits x u = .error .distanceUnitsNotCorrect := by
  unfold Utility.convertPixelsToDistanceUnits
  cases u with
  | str s =>
    have hs1 : s ≠ "mm" := fun h => h1 (by rw [h])
    have hs2 : s ≠ "inch" := fun h => h2 (by rw [h])
    simp [hs1, hs2]
  | _ => rfl

/-- With a value other than `false` as `onDistanceChanged` and an unrecognised unit,
`trackingManagerDistanceChanged` throws the conversion error and the callback log is
as before. -/
theorem distanceChanged_throws (H : Host R) (gain : R) (w : World R)
    (hcb : w.config "onDistanceChanged" ≠ .bool false)
    (h1 : w.config "distanceUnits" ≠ .str "mm") (h2 : w.config "distanceUnits" ≠ .str "inch") :
    (MouseTracker.trackingManagerDistanceChanged H gain w).1 = .error .distanceUnitsNotCorrect ∧
    (MouseTracker.trackingManagerDistanceChanged H gain w).2.page.calls = w.page.calls := by
  simp only [World.config] at hcb h1 h2
  unfold MouseTracker.trackingManagerDistanceChanged
  simp only [World.config]
  split_ifs <;> simp [hcb, convert_unrecognised _ _ h1 h2]

/-- The tracker fields after construction. -/
theorem new_self (H : Host R) (config : List (String × JSVal R)) (page : Page R) :
    (MouseTracker.new H config page).self =
      { actualDistance :=
          match MouseTracker.updateConfig config page.DEFAULTS "remember_user" with
          | .bool true =>
            match StorageManager.getKey "distanceTraveled" page.localStorage with
            | some savedDistance => H.parseFloat savedDistance
            | none => 0
          | _ => 0
        trackingManager := { firstMove := false, lastMousePosition := ⟨0, 0⟩ } } := by
  unfold MouseTracker.new MouseTracker.init
  simp only [World.config]
  split
  · cases StorageManager.getKey "distanceTraveled" page.localStorage <;> rfl
  · rfl

/-- The storage after construction. -/
theorem new_localStorage (H : Host R) (config : List (String × JSVal R)) (page : Page R) :
    (MouseTracker.new H config page).page.localStorage =
      match MouseTracker.updateConfig config page.DEFAULTS "remember_user" with
      | .bool true => page.localStorage
      | _ => StorageManager.deleteKey "distanceTraveled" page.localStorage := by
  unfold MouseTracker.new MouseTracker.init
  simp only [World.config]
  split
  · cases StorageManager.getKey "distanceTraveled" page.localStorage <;> rfl
  · rfl

/-- The storage after a `mousemove`. -/
theorem mousemove_localStorage (H : Host R) (e : Point R) (w : World R) :
    (mousemove H e w).2.page.localStorage =
      if w.self.trackingManager.firstMove = true ∧ (w.config "remember_user").truthy = true then
        StorageManager.setKey H "distanceTraveled"
          (w.self.actualDistance +
            Utility.computeDistance H w.self.trackingManager.lastMousePosition e)
          w.page.localStorage
      else w.page.localStorage := by
  cases h : w.self.trackingManager.firstMove
  · rw [mousemove_first H e w h]
    simp
  · rw [mousemove_later H e w h, distanceChanged_localStorage]
    simp [World.config]

/-- The tracker fields after a `mousemove`. -/
theorem mousemove_actualDistance (H : Host R) (e : Point R) (w : World R) :
    (mousemove H e w).2.self.actualDistance =
      if w.self.trackingManager.firstMove = true then
        w.self.actualDistance +
          Utility.computeDistance H w.self.trackingManager.lastMousePosition e
      else w.self.actualDistance := by
  cases h : w.self.trackingManager.firstMove
  · rw [mousemove_first H e w h]
    simp
  · rw [mousemove_later H e w h, distanceChanged_self]
    simp

/-- The triangle inequality for a chain of steps in the plane, in squared form: with
`d i` at least 0 and `d i ^ 2` the squared length of the step `(a i, b i)`, the
squared length of the sum of the steps is at most the square of the sum of the
`d i`, which is at least 0. -/
theorem chain_sq_le (a b d : ℕ → R) (n : ℕ)
    (hd : ∀ i, i < n → 0 ≤ d i ∧ d i ^ 2 = a i ^ 2 + b i ^ 2) :
    0 ≤ ∑ i ∈ Finset.range n, d i ∧
    (∑ i ∈ Finset.range n, a i) ^ 2 + (∑ i ∈ Finset.range n, b i) ^ 2 ≤
      (∑ i ∈ Finset.range n, d i) ^ 2 := by
  induction n with
  | zero => simp
  | succ n ih =>
    obtain ⟨hS, hAB⟩ := ih (fun i hi => hd i (Nat.lt_succ_of_lt hi))
    obtain ⟨hdn, hdn2⟩ := hd n (Nat.lt_succ_self n)
    rw [Finset.sum_range_succ, Finset.sum_range_succ, Finset.sum_range_succ]
    generalize (∑ i ∈ Finset.range n, a i) = A at hAB ⊢
    generalize (∑ i ∈ Finset.range n, b i) = B at hAB ⊢
    generalize (∑ i ∈ Finset.range n, d i) = S at hS hAB ⊢
    have hSd : 0 ≤ S * d n := mul_nonneg hS hdn
    have hcs : (A * a n + B * b n) ^ 2 ≤ (S * d n) ^ 2 := by
      nlinarith [mul_nonneg (sub_nonneg.2 hAB) (sq_nonneg (d n)),
        sq_nonneg (A * b n - B * a n)]
    have hdot : A * a n + B * b n ≤ S * d n := (abs_le_of_sq_le_sq' hcs hSd).2
    refine ⟨add_nonneg hS hdn, ?_⟩
    nlinarith

end Effects

/-- Reading the key back after `setKey`. -/
theorem getKey_setKey {R : Type} (H : Host R) (key : String) (value : R) (ls : Storage) :
    StorageManager.getKey key (StorageManager.setKey H key value ls) =
      some (H.numberToString value) := by
  simp [StorageManager.getKey, StorageManager.setKey]

/-! ## Claims -/

section Claims

variable {R : Type} [LinearOrderedField R]

/-- C1. For a freshly constructed tracker with starting total `t0` and positions
`p 0, p 1, ...` delivered as `mousemove` events: the first event makes no call of the
delegate and leaves the total at `t0`; every later event `p (k + 1)` calls the delegate
with the gain `computeDistance (p k) (p (k + 1))` and leaves the total equal to `t0`
plus the sum of `computeDistance (p i) (p (i + 1))` for `i ≤ k`. -/
theorem C1_first_move_silent_then_running_sum (H : Host R) (config : List (String × JSVal R))
    (page : Page R) (p : ℕ → Point R) :
    let w0 := MouseTracker.new H config page
    let t0 := w0.self.actualDistance
    let after := fun k => mousemoves H ((List.range (k + 1)).map p) w0
    (TrackingManager.handleMouseMove H (p 0) w0.self.trackingManager).2 = none ∧
    (after 0).self.actualDistance = t0 ∧
    ∀ k : ℕ,
      (TrackingManager.handleMouseMove H (p (k + 1)) (after k).self.trackingManager).2 =
        some (Utility.computeDistance H (p k) (p (k + 1))) ∧
      (after (k + 1)).self.actualDistance =
        t0 + ∑ i ∈ Finset.range (k + 1), Utility.computeDistance H (p i) (p (i + 1)) := by
  intro w0 t0 after
  have h0 : w0.self.trackingManager.firstMove = false := new_firstMove H config page
  refine ⟨?_, ?_, ?_⟩
  · simp [TrackingManager.handleMouseMove, h0]
  · show (mousemoves H ((List.range (0 + 1)).map p) w0).self.actualDistance = t0
    rw [self_after_moves H p w0 h0 0]
    simp [t0]
  · intro k
    constructor
    · show (TrackingManager.handleMouseMove H (p (k + 1))
        (mousemoves H ((List.range (k + 1)).map p) w0).self.trackingManager).2 = _
      rw [self_after_moves H p w0 h0 k]
      simp [TrackingManager.handleMouseMove]
    · show (mousemoves H ((List.range (k + 1 + 1)).map p) w0).self.actualDistance = _
      rw [self_after_moves H p w0 h0 (k + 1)]

/-- C2. Conversion to inches is `p / 96` and to millimetres `25.4 * p / 96`; in
particular 96 pixels are exactly 1 inch and exactly 25.4 millimetres. -/
theorem C2_conversion_ratios (p : R) :
    Utility.convertPixelsToDistanceUnits p (.str "inch") = .ok (p / 96) ∧
    Utility.convertPixelsToDistanceUnits p (.str "mm") = .ok (25.4 * p / 96) ∧
    Utility.convertPixelsToDistanceUnits (96 : R) (.str "inch") = .ok 1 ∧
    Utility.convertPixelsToDistanceUnits (96 : R) (.str "mm") = .ok 25.4 := by
  have hne : ¬ ("inch" = "mm") := by decide
  refine ⟨?_, ?_, ?_, ?_⟩ <;>
    simp only [Utility.convertPixelsToDistanceUnits, hne, if_true, if_false] <;>
    congr 1 <;> norm_num <;> ring

/-- C3. The conversion throws if and only if the unit is neither the string `mm` nor
the string `inch`; there is no default ratio. -/
theorem C3_error_iff_unrecognised (p : R) (u : JSVal R) :
    (∃ e, Utility.convertPixelsToDistanceUnits p u = .error e) ↔
      (u ≠ .str "mm" ∧ u ≠ .str "inch") := by
  unfold Utility.convertPixelsToDistanceUnits
  cases u with
  | str s =>
    by_cases h1 : s = "mm"
    · simp [h1]
    · by_cases h2 : s = "inch"
      · simp [h2]
      · simp [h1, h2]
  | _ => simp

/-- C4. With a recognised unit, `clearDistanceTraveled` followed by
`getDistanceTraveled` returns 0; the clear stores the text of 0 under the key
`mouseTracker-distanceTraveled` (the key stays set) when `remember_user` is truthy,
and leaves the storage as it was when `remember_user` is falsy. -/
theorem C4_clear_then_get_is_zero (H : Host R) (w : World R)
    (hu : w.config "distanceUnits" = .str "mm" ∨ w.config "distanceUnits" = .str "inch") :
    (API.getDistanceTraveled (API.clearDistanceTraveled H w)).1 = .ok 0 ∧
    ((w.config "remember_user").truthy = true →
      (API.clearDistanceTraveled H w).page.localStorage =
        fun k => if k = "mouseTracker-distanceTraveled" then some (H.numberToString 0)
          else w.page.localStorage k) ∧
    ((w.config "remember_user").truthy = false →
      (API.clearDistanceTraveled H w).page.localStorage = w.page.localStorage) := by
  refine ⟨?_, ?_, ?_⟩
  · obtain ⟨r, hr⟩ := convert_recognised _ hu
    have h0 := hr 0
    simp only [World.config] at h0
    simp [API.getDistanceTraveled, API.clearDistanceTraveled, MouseTracker.getActualDistance,
      World.config, clear_self, clear_DEFAULTS, h0]
  · intro ht
    rw [API.clearDistanceTraveled, clear_localStorage, ht, if_pos rfl]
    funext k
    simp only [StorageManager.setKey, storage_key]
  · intro ht
    simp [API.clearDistanceTraveled, clear_localStorage, ht]

/-- C5. The method `clearDistanceTraveled` leaves the first-move flag and the last
position as they were: on a tracker that has seen a move, with last position `q`,
the first `mousemove` to `p` after a clear calls the delegate with the gain
`computeDistance q p` and leaves the total equal to `computeDistance q p`. -/
theorem C5_clear_keeps_flag_and_position (H : Host R) (w : World R) (q p : Point R)
    (hf : w.self.trackingManager.firstMove = true)
    (hq : w.self.trackingManager.lastMousePosition = q) :
    (API.clearDistanceTraveled H w).self.trackingManager = w.self.trackingManager ∧
    (TrackingManager.handleMouseMove H p
      (API.clearDistanceTraveled H w).self.trackingManager).2 =
        some (Utility.computeDistance H q p) ∧
    (mousemove H p (API.clearDistanceTraveled H w)).2.self.actualDistance =
      Utility.computeDistance H q p := by
  have ht : (API.clearDistanceTraveled H w).self.trackingManager = w.self.trackingManager := by
    simp [API.clearDistanceTraveled, clear_self]
  refine ⟨ht, ?_, ?_⟩
  · simp [ht, TrackingManager.handleMouseMove, hf, hq]
  · rw [mousemove_later _ _ _ (by rw [ht]; exact hf), distanceChanged_self]
    simp [ht, hq, API.clearDistanceTraveled, clear_self]

/-- C10. The method `getDistanceTraveled` returns the conversion of the total in
pixels to the configured unit, and the state after the call (total, last position,
first-move flag, configuration, storage, callback log) is the state before it. -/
theorem C10_get_is_conversion_without_effect (w : World R) :
    API.getDistanceTraveled w =
      (Utility.convertPixelsToDistanceUnits w.self.actualDistance (w.config "distanceUnits"), w) := by
  rfl

/-- C6. Persistence round trip.  Let `remember_user` be truthy, so that a distance
change and a clear store the total.  A tracker constructed afterwards over the same
page, with `remember_user` equal to `true` in its merged configuration, starts with
that total, provided `parseFloat` reads back the text the host printed for it.  When
the key is not set, such a tracker starts with total 0. -/
theorem C6_persistence_round_trip (H : Host R) (w : World R) (gain : R)
    (config : List (String × JSVal R)) (page : Page R) :
    ((w.config "remember_user").truthy = true →
      (MouseTracker.new H config
        (MouseTracker.trackingManagerDistanceChanged H gain w).2.page).config "remember_user" =
          .bool true →
      H.parseFloat (H.numberToString
        (MouseTracker.trackingManagerDistanceChanged H gain w).2.self.actualDistance) =
          (MouseTracker.trackingManagerDistanceChanged H gain w).2.self.actualDistance →
      (MouseTracker.new H config
        (MouseTracker.trackingManagerDistanceChanged H gain w).2.page).self.actualDistance =
          (MouseTracker.trackingManagerDistanceChanged H gain w).2.self.actualDistance) ∧
    ((w.config "remember_user").truthy = true →
      (MouseTracker.new H config (API.clearDistanceTraveled H w).page).config "remember_user" =
        .bool true →
      H.parseFloat (H.numberToString (API.clearDistanceTraveled H w).self.actualDistance) =
        (API.clearDistanceTraveled H w).self.actualDistance →
      (MouseTracker.new H config (API.clearDistanceTraveled H w).page).self.actualDistance =
        (API.clearDistanceTraveled H w).self.actualDistance) ∧
    (StorageManager.getKey "distanceTraveled" page.localStorage = none →
      (MouseTracker.new H config page).config "remember_user" = .bool true →
      (MouseTracker.new H config page).self.actualDistance = 0) := by
  refine ⟨?_, ?_, ?_⟩
  · intro ht hc hrt
    rw [new_remembering H config _ hc, distanceChanged_localStorage, ht, if_pos rfl,
      getKey_setKey]
    rw [distanceChanged_self] at hrt ⊢
    exact hrt
  · intro ht hc hrt
    rw [new_remembering H config _ hc, API.clearDistanceTraveled, clear_localStorage, ht,
      if_pos rfl, getKey_setKey]
    rw [API.clearDistanceTraveled, clear_self] at hrt
    rw [clear_self]
    exact hrt
  · intro hk hc
    rw [new_remembering H config _ hc, hk]

/-- C7. Constructing a tracker whose merged configuration has `remember_user` equal
to `false` deletes the key `mouseTracker-distanceTraveled`, whatever was stored (a
later `getKey` reports it as not set), and the new tracker starts with total 0. -/
theorem C7_not_remembering_deletes_key (H : Host R) (config : List (String × JSVal R))
    (page : Page R)
    (h : (MouseTracker.new H config page).config "remember_user" = .bool false) :
    (MouseTracker.new H config page).page.localStorage "mouseTracker-distanceTraveled" = none ∧
    StorageManager.getKey "distanceTraveled" (MouseTracker.new H config page).page.localStorage =
      none ∧
    (MouseTracker.new H config page).self.actualDistance = 0 := by
  have hne : (MouseTracker.new H config page).config "remember_user" ≠ .bool true := by
    rw [h]; simp
  obtain ⟨h0, hs⟩ := new_not_remembering H config page hne
  refine ⟨?_, ?_, h0⟩
  · rw [hs]; simp [StorageManager.deleteKey, storage_key]
  · rw [hs]; simp [StorageManager.getKey, StorageManager.deleteKey]

/-- C8. On a tracker that has not seen a move yet, with a function `f` configured as
`onDistanceChanged` and a recognised unit (converting with ratio `r`), the `n + 1`
events `p 0, ..., p n` invoke `f` exactly `n` times, once per move after the first and
in event order: the invocation for the move to `p (k + 1)` receives the total after
that move and its gain, both converted.  A move to the position of the previous
event is not filtered: where the host gives `Math.sqrt(parseFloat(0)) = 0`, it invokes
`f` with gain 0 and a total that is the one before the move. -/
theorem C8_callback_once_per_later_move (H : Host R) (w : World R) (f : Nat)
    (p : ℕ → Point R) (n : ℕ)
    (hf : w.self.trackingManager.firstMove = false)
    (hcb : w.config "onDistanceChanged" = .func f)
    (hu : w.config "distanceUnits" = .str "mm" ∨ w.config "distanceUnits" = .str "inch") :
    ∃ r : R,
      (∀ x : R, Utility.convertPixelsToDistanceUnits x (w.config "distanceUnits") = .ok (x * r)) ∧
      (mousemoves H ((List.range (n + 1)).map p) w).page.calls =
        w.page.calls ++ (List.range n).map (fun k =>
          (f, (mousemoves H ((List.range (k + 2)).map p) w).self.actualDistance * r,
            Utility.computeDistance H (p k) (p (k + 1)) * r)) ∧
      ((mousemoves H ((List.range (n + 1)).map p) w).page.calls.length =
        w.page.calls.length + n) ∧
      ∀ k : ℕ, k < n → p (k + 1) = p k → H.sqrt (H.parseFloat (H.numberToString 0)) = 0 →
        (mousemoves H ((List.range (n + 1)).map p) w).page.calls[w.page.calls.length + k]? =
          some (f, (mousemoves H ((List.range (k + 1)).map p) w).self.actualDistance * r, 0) ∧
        (mousemoves H ((List.range (k + 2)).map p) w).self.actualDistance =
          (mousemoves H ((List.range (k + 1)).map p) w).self.actualDistance := by
  obtain ⟨r, hr⟩ := convert_recognised _ hu
  have hcalls := calls_after_moves H p w f r hf hcb hr n
  refine ⟨r, hr, hcalls, ?_, ?_⟩
  · rw [hcalls]; simp
  · intro k hk hsame h0
    have hd : Utility.computeDistance H (p k) (p (k + 1)) = 0 := by
      rw [hsame, computeDistance_self, h0]
    have ht : (mousemoves H ((List.range (k + 2)).map p) w).self.actualDistance =
        (mousemoves H ((List.range (k + 1)).map p) w).self.actualDistance := by
      rw [self_after_moves H p w hf (k + 1), self_after_moves H p w hf k, Finset.sum_range_succ,
        hd, add_zero]
    refine ⟨?_, ht⟩
    rw [hcalls, List.getElem?_append_right (Nat.le_add_right _ _), Nat.add_sub_cancel_left,
      List.getElem?_map, List.getElem?_range hk]
    simp [hd, ht]

/-- C9 (evaluation at the failing input). A tracker constructed with an empty user
configuration after a tracker constructed with `remember_user: true` on the same page
runs with `remember_user` equal to `true`, not with the default `false`; and the
second construction of a tracker with `distanceUnits: 'inch'` also changes the unit
the first tracker converts with. -/
theorem C9_defaults_leak_between_trackers (H : Host R) (storage : Storage) :
    (MouseTracker.new H []
      (MouseTracker.new H [("remember_user", .bool true)] (Page.load storage)).page).config
        "remember_user" = .bool true ∧
    (DEFAULTS : JSObject R) "remember_user" = .bool false ∧
    (MouseTracker.new H [("distanceUnits", .str "inch")]
      (MouseTracker.new H [] (Page.load storage)).page).page.DEFAULTS "distanceUnits" =
        .str "inch" := by
  refine ⟨?_, ?_, ?_⟩
  · rw [new_config]
    have h := new_config H [("remember_user", .bool true)] (Page.load storage)
    simp only [World.config] at h
    rw [h]
    simp [MouseTracker.updateConfig, JSObject.set]
  · simp [DEFAULTS]
  · have h := new_config H [("distanceUnits", .str "inch")]
      (MouseTracker.new H [] (Page.load storage)).page
    simp only [World.config] at h
    rw [h]
    simp [MouseTracker.updateConfig, JSObject.set]

/-- C11. With a unit that is neither `mm` nor `inch`, the conversion error reaches
the caller: `getDistanceTraveled` throws it in every state, and every `mousemove`
after the first, on a tracker whose `onDistanceChanged` is not `false`, throws it
and leaves the callback log as it was. -/
theorem C11_conversion_error_propagates (H : Host R) (w : World R) (e : Point R)
    (h1 : w.config "distanceUnits" ≠ .str "mm") (h2 : w.config "distanceUnits" ≠ .str "inch") :
    (API.getDistanceTraveled w).1 = .error .distanceUnitsNotCorrect ∧
    (w.self.trackingManager.firstMove = true → w.config "onDistanceChanged" ≠ .bool false →
      (mousemove H e w).1 = .error .distanceUnitsNotCorrect ∧
      (mousemove H e w).2.page.calls = w.page.calls) := by
  refine ⟨?_, ?_⟩
  · exact convert_unrecognised _ _ h1 h2
  · intro hf hcb
    rw [mousemove_later H e w hf]
    exact distanceChanged_throws H _ _ hcb h1 h2

/-- C13. The method `computeDistance` is symmetric in its two points. -/
theorem C13_computeDistance_symmetric (H : Host R) (a b : Point R) :
    Utility.computeDistance H a b = Utility.computeDistance H b a := by
  unfold Utility.computeDistance
  have h : (a.x - b.x) ^ 2 + (a.y - b.y) ^ 2 = (b.x - a.x) ^ 2 + (b.y - a.y) ^ 2 := by ring
  rw [h]

/-- C14. The distance from a point to itself is 0, on a host where
`Math.sqrt(parseFloat(0))` is 0. -/
theorem C14_computeDistance_self_zero (H : Host R) (a : Point R)
    (h0 : H.sqrt (H.parseFloat (H.numberToString 0)) = 0) :
    Utility.computeDistance H a a = 0 := by
  rw [computeDistance_self, h0]

/-- C20. A `mousemove` that throws the conversion error has already taken effect: on a
tracker that has seen a move, with last position `q`, a value other than `false` as
`onDistanceChanged` and an unrecognised unit, the move to `p` throws, and afterwards
the total has grown by `computeDistance q p`, the last position is `p`, and, when
`remember_user` is truthy, the key holds the text of the new total. -/
theorem C20_failing_move_is_not_atomic (H : Host R) (w : World R) (q p : Point R)
    (hf : w.self.trackingManager.firstMove = true)
    (hq : w.self.trackingManager.lastMousePosition = q)
    (hcb : w.config "onDistanceChanged" ≠ .bool false)
    (h1 : w.config "distanceUnits" ≠ .str "mm") (h2 : w.config "distanceUnits" ≠ .str "inch") :
    (mousemove H p w).1 = .error .distanceUnitsNotCorrect ∧
    (mousemove H p w).2.self.actualDistance =
      w.self.actualDistance + Utility.computeDistance H q p ∧
    (mousemove H p w).2.self.trackingManager.lastMousePosition = p ∧
    ((w.config "remember_user").truthy = true →
      StorageManager.getKey "distanceTraveled" (mousemove H p w).2.page.localStorage =
        some (H.numberToString (w.self.actualDistance + Utility.computeDistance H q p))) := by
  have hthrow := distanceChanged_throws H (Utility.computeDistance H q p)
    { w with self := { w.self with trackingManager :=
      { w.self.trackingManager with lastMousePosition := p } } } hcb h1 h2
  rw [mousemove_later H p w hf, hq]
  refine ⟨hthrow.1, ?_, ?_, ?_⟩
  · rw [distanceChanged_self]
  · rw [distanceChanged_self]
  · intro ht
    have ht2 : (World.config ({ w with self := { w.self with trackingManager :=
        { w.self.trackingManager with lastMousePosition := p } } } : World R)
        "remember_user").truthy = true := ht
    rw [distanceChanged_localStorage, ht2, if_pos rfl, getKey_setKey]

/-- C12. On a host whose `Math.sqrt` returns no negative number, every `mousemove`
calls the delegate, if at all, with a gain that is at least 0, and the total after
the event is at least the total before it. -/
theorem C12_total_never_decreases (H : Host R) (w : World R) (e : Point R)
    (hs : ∀ x : R, 0 ≤ H.sqrt x) :
    (∀ gain : R,
      (TrackingManager.handleMouseMove H e w.self.trackingManager).2 = some gain → 0 ≤ gain) ∧
    w.self.actualDistance ≤ (mousemove H e w).2.self.actualDistance := by
  refine ⟨?_, ?_⟩
  · intro gain hg
    cases h : w.self.trackingManager.firstMove
    · simp [TrackingManager.handleMouseMove, h] at hg
    · simp [TrackingManager.handleMouseMove, h] at hg
      rw [← hg]
      exact hs _
  · rw [mousemove_actualDistance]
    split_ifs
    · exact le_add_of_nonneg_right (hs _)
    · exact le_refl _

/-- C15, as amended. In exact arithmetic (numbers read as a field, as in C2), the
conversion for a recognised unit is linear in the pixel argument: it succeeds on `p`
with some result `d`, and on `k * p` its result is `k * d`, for every factor `k` (so
for every `k` that is at least 0). -/
theorem C15_conversion_linear (p k : R) (u : JSVal R)
    (hu : u = .str "mm" ∨ u = .str "inch") :
    ∃ d : R, Utility.convertPixelsToDistanceUnits p u = .ok d ∧
      Utility.convertPixelsToDistanceUnits (k * p) u = .ok (k * d) := by
  obtain ⟨r, hr⟩ := convert_recognised u hu
  exact ⟨p * r, hr p, by rw [hr (k * p), mul_assoc]⟩

/-- C16. With `remember_user` truthy, the persisted value (read by `parseFloat`, a key
that is not set meaning 0) equals the total in memory after construction, and each
operation keeps it so: a `mousemove` and a `clearDistanceTraveled` where the host
reads back the text it printed for the total they leave, and `getDistanceTraveled`
always.  A `mousemove` after the first stores the text of the whole new total, the
old total plus the gain. -/
theorem C16_persisted_value_mirrors_total (H : Host R) (config : List (String × JSVal R))
    (page : Page R) (w : World R) (e : Point R) :
    (((MouseTracker.new H config page).config "remember_user").truthy = true →
      storedTotal H (MouseTracker.new H config page) =
        (MouseTracker.new H config page).self.actualDistance) ∧
    ((w.config "remember_user").truthy = true →
      storedTotal H w = w.self.actualDistance →
      H.parseFloat (H.numberToString (mousemove H e w).2.self.actualDistance) =
        (mousemove H e w).2.self.actualDistance →
      storedTotal H (mousemove H e w).2 = (mousemove H e w).2.self.actualDistance) ∧
    ((w.config "remember_user").truthy = true →
      H.parseFloat (H.numberToString (API.clearDistanceTraveled H w).self.actualDistance) =
        (API.clearDistanceTraveled H w).self.actualDistance →
      storedTotal H (API.clearDistanceTraveled H w) =
        (API.clearDistanceTraveled H w).self.actualDistance) ∧
    (storedTotal H w = w.self.actualDistance →
      storedTotal H (API.getDistanceTraveled w).2 =
        (API.getDistanceTraveled w).2.self.actualDistance) ∧
    ((w.config "remember_user").truthy = true → w.self.trackingManager.firstMove = true →
      StorageManager.getKey "distanceTraveled" (mousemove H e w).2.page.localStorage =
        some (H.numberToString (w.self.actualDistance +
          Utility.computeDistance H w.self.trackingManager.lastMousePosition e))) := by
  refine ⟨?_, ?_, ?_, ?_, ?_⟩
  · intro _
    unfold storedTotal
    rw [new_self, new_localStorage]
    generalize MouseTracker.updateConfig config page.DEFAULTS "remember_user" = v
    cases v with
    | bool b => cases b <;> simp [StorageManager.getKey, StorageManager.deleteKey]
    | _ => simp [StorageManager.getKey, StorageManager.deleteKey]
  · intro ht hm hrt
    cases hf : w.self.trackingManager.firstMove
    · rw [mousemove_first H e w hf]
      exact hm
    · rw [mousemove_actualDistance, if_pos hf] at hrt ⊢
      unfold storedTotal
      rw [mousemove_localStorage, if_pos ⟨hf, ht⟩, getKey_setKey]
      exact hrt
  · intro ht hrt
    rw [API.clearDistanceTraveled, clear_self] at hrt ⊢
    unfold storedTotal
    rw [clear_localStorage, ht, if_pos rfl, getKey_setKey]
    exact hrt
  · intro hm
    exact hm
  · intro ht hf
    rw [mousemove_localStorage, if_pos ⟨hf, ht⟩, getKey_setKey]

/-- C17. Every operation of a tracker leaves every storage key other than
`mouseTracker-distanceTraveled` with the value it had: construction, `mousemove`,
`clearDistanceTraveled` and `getDistanceTraveled`.  Construction reads the storage at
that key only: on two storages that agree at it, the new trackers are the same. -/
theorem C17_only_the_own_key_is_touched (H : Host R) (config : List (String × JSVal R))
    (page : Page R) (w : World R) (e : Point R) (k : String)
    (hk : k ≠ "mouseTracker-distanceTraveled") :
    (MouseTracker.new H config page).page.localStorage k = page.localStorage k ∧
    (mousemove H e w).2.page.localStorage k = w.page.localStorage k ∧
    (API.clearDistanceTraveled H w).page.localStorage k = w.page.localStorage k ∧
    (API.getDistanceTraveled w).2.page.localStorage k = w.page.localStorage k ∧
    ∀ ls : Storage,
      ls "mouseTracker-distanceTraveled" = page.localStorage "mouseTracker-distanceTraveled" →
      (MouseTracker.new H config { page with localStorage := ls }).self =
        (MouseTracker.new H config page).self := by
  have hk2 : k ≠ STORAGE_PREFIX ++ "distanceTraveled" := by rw [storage_key]; exact hk
  refine ⟨?_, ?_, ?_, rfl, ?_⟩
  · rw [new_localStorage]
    generalize MouseTracker.updateConfig config page.DEFAULTS "remember_user" = v
    cases v with
    | bool b => cases b <;> simp [StorageManager.deleteKey, hk2]
    | _ => simp [StorageManager.deleteKey, hk2]
  · rw [mousemove_localStorage]
    split_ifs
    · simp [StorageManager.setKey, hk2]
    · rfl
  · rw [API.clearDistanceTraveled, clear_localStorage]
    split_ifs
    · simp [StorageManager.setKey, hk2]
    · rfl
  · intro ls hls
    rw [new_self, new_self]
    simp only [StorageManager.getKey, storage_key, hls]

/-- C19, as amended. For a tracker constructed with total 0 and the events
`p 0, ..., p n` with no clear in between.  When `n ≤ 1`, the resulting total equals
`computeDistance (p 0) (p n)` on every host with `Math.sqrt(parseFloat(0)) = 0`.  For
every `n`, where `computeDistance` is exact on the path, that is, it is the
Euclidean distance on each pair of consecutive positions (at least 0, and its
square the sum of the squared coordinate differences) and on the pair of the two
ends, the resulting total is at least `computeDistance (p 0) (p n)`. -/
theorem C19_exact_path_length_dominates_displacement (H : Host R)
    (config : List (String × JSVal R)) (page : Page R) (p : ℕ → Point R) (n : ℕ)
    (h0 : (MouseTracker.new H config page).self.actualDistance = 0) :
    (n ≤ 1 → H.sqrt (H.parseFloat (H.numberToString 0)) = 0 →
      (mousemoves H ((List.range (n + 1)).map p) (MouseTracker.new H config page)).self.actualDistance =
        Utility.computeDistance H (p 0) (p n)) ∧
    ((∀ i, i < n →
        0 ≤ Utility.computeDistance H (p i) (p (i + 1)) ∧
        Utility.computeDistance H (p i) (p (i + 1)) ^ 2 =
          ((p i).x - (p (i + 1)).x) ^ 2 + ((p i).y - (p (i + 1)).y) ^ 2) →
      Utility.computeDistance H (p 0) (p n) ^ 2 =
        ((p 0).x - (p n).x) ^ 2 + ((p 0).y - (p n).y) ^ 2 →
      Utility.computeDistance H (p 0) (p n) ≤
        (mousemoves H ((List.range (n + 1)).map p)
          (MouseTracker.new H config page)).self.actualDistance) := by
  rw [self_after_moves H p _ (new_firstMove H config page) n, h0]
  simp only [zero_add]
  refine ⟨?_, ?_⟩
  · intro hn hz
    interval_cases n
    · rw [computeDistance_self, hz]
      simp
    · simp
  · intro hstep hend
    obtain ⟨hS, hle⟩ := chain_sq_le (fun i => (p i).x - (p (i + 1)).x)
      (fun i => (p i).y - (p (i + 1)).y)
      (fun i => Utility.computeDistance H (p i) (p (i + 1))) n hstep
    simp only [Finset.sum_range_sub'] at hle
    rw [← hend] at hle
    exact (abs_le_of_sq_le_sq' hle hS).2

end Claims

/-- C18. Laws of the storage manager: `getKey` after `setKey` of the same key returns
the text stored for the value; `getKey` after `deleteKey` of the same key returns
`false` (here `none`); and `getKey` returns `false` exactly when the prefixed key is
not set in the storage. -/
theorem C18_storage_manager_laws {R : Type} (H : Host R) (k : String) (v : R) (ls : Storage) :
    StorageManager.getKey k (StorageManager.setKey H k v ls) = some (H.numberToString v) ∧
    StorageManager.getKey k (StorageManager.deleteKey k ls) = none ∧
    (StorageManager.getKey k ls = none ↔ ls ("mouseTracker-" ++ k) = none) := by
  refine ⟨getKey_setKey H k v ls, ?_, ?_⟩
  · simp [StorageManager.getKey, StorageManager.deleteKey]
  · simp [StorageManager.getKey, STORAGE_PREFIX]

/-! ## The claims at concrete inputs -/

/-- On the host `ratHost`, the distance from `(0,0)` to `(3,4)` is 5. -/
theorem ratHost_distance_3_4 : Utility.computeDistance ratHost ⟨0, 0⟩ ⟨3, 4⟩ = 5 := by
  have h1 : ((0 : ℚ) - 3) ^ 2 + ((0 : ℚ) - 4) ^ 2 = 25 := by norm_num
  have h2 : ratHost.parseFloat (ratHost.numberToString 25) = 25 := by rfl
  have h3 : ratHost.sqrt 25 = 5 := by
    show Rat.sqrt 25 = 5
    rw [show (25 : ℚ) = 5 * 5 by norm_num, Rat.sqrt_eq]
    norm_num
  simp only [Utility.computeDistance, h1, h2, h3]

/-- C1 at `(0,0)` then `(3,4)` from total 0: no delegate call on the first event, then
gain 5 and total 5. -/
theorem C1_scenario_3_4_5 :
    (TrackingManager.handleMouseMove ratHost ⟨0, 0⟩
      (MouseTracker.new ratHost [] (Page.load emptyStorage)).self.trackingManager).2 = none ∧
    (TrackingManager.handleMouseMove ratHost ⟨3, 4⟩
      (mousemoves ratHost [⟨0, 0⟩]
        (MouseTracker.new ratHost [] (Page.load emptyStorage))).self.trackingManager).2 = some 5 ∧
    (mousemoves ratHost [⟨0, 0⟩, ⟨3, 4⟩]
      (MouseTracker.new ratHost [] (Page.load emptyStorage))).self.actualDistance = 5 := by
  have h := C1_first_move_silent_then_running_sum ratHost [] (Page.load emptyStorage) path345
  simp only at h
  obtain ⟨ha, -, hc⟩ := h
  obtain ⟨hc1, hc2⟩ := hc 0
  have h0 : (MouseTracker.new ratHost [] (Page.load emptyStorage)).self.actualDistance = 0 := rfl
  simp [List.range_succ, path345, ratHost_distance_3_4, h0] at ha hc1 hc2
  exact ⟨ha, hc1, hc2⟩

/-- C4 at a tracker that remembers: after a clear the distance reads 0 and the key
holds the text of 0. -/
theorem C4_witness :
    (rememberingTracker.config "distanceUnits" = .str "mm" ∨
      rememberingTracker.config "distanceUnits" = .str "inch") ∧
    (API.getDistanceTraveled (API.clearDistanceTraveled ratHost rememberingTracker)).1 = .ok 0 ∧
    (API.clearDistanceTraveled ratHost rememberingTracker).page.localStorage
      "mouseTracker-distanceTraveled" = some "0" := by
  have h := C4_clear_then_get_is_zero ratHost rememberingTracker (Or.inl rfl)
  refine ⟨Or.inl rfl, h.1, ?_⟩
  rw [h.2.1 rfl]
  rfl

/-- C5 at a tracker whose last position is `(0,0)`, moved to `(3,4)` after a clear. -/
theorem C5_witness :
    movedTracker.self.trackingManager.firstMove = true ∧
    movedTracker.self.trackingManager.lastMousePosition = ⟨0, 0⟩ ∧
    (TrackingManager.handleMouseMove ratHost ⟨3, 4⟩
      (API.clearDistanceTraveled ratHost movedTracker).self.trackingManager).2 = some 5 ∧
    (mousemove ratHost ⟨3, 4⟩ (API.clearDistanceTraveled ratHost movedTracker)).2.self.actualDistance
      = 5 := by
  have h := C5_clear_keeps_flag_and_position ratHost movedTracker ⟨0, 0⟩ ⟨3, 4⟩ rfl rfl
  rw [ratHost_distance_3_4] at h
  exact ⟨rfl, rfl, h.2.1, h.2.2⟩

/-- C6 at a remembering tracker on `ratHost`: after a gain of 5, after a clear, and on
an empty storage, a new remembering tracker starts with the total persisted. -/
theorem C6_witness :
    (MouseTracker.trackingManagerDistanceChanged ratHost 5 movedTracker).2.page.localStorage
      "mouseTracker-distanceTraveled" = some "5" ∧
    (MouseTracker.new ratHost [("remember_user", .bool true)]
      (MouseTracker.trackingManagerDistanceChanged ratHost 5 movedTracker).2.page).self.actualDistance =
        (MouseTracker.trackingManagerDistanceChanged ratHost 5 movedTracker).2.self.actualDistance ∧
    (MouseTracker.new ratHost [("remember_user", .bool true)]
      (API.clearDistanceTraveled ratHost movedTracker).page).self.actualDistance =
        (API.clearDistanceTraveled ratHost movedTracker).self.actualDistance ∧
    (MouseTracker.new ratHost [("remember_user", .bool true)]
      (Page.load emptyStorage)).self.actualDistance = 0 := by
  have h := C6_persistence_round_trip ratHost movedTracker 5 [("remember_user", .bool true)]
    (Page.load emptyStorage)
  have h5 : (MouseTracker.trackingManagerDistanceChanged ratHost 5 movedTracker).2.self.actualDistance
      = 5 := by
    rw [distanceChanged_self]
    show (0 : ℚ) + 5 = 5
    norm_num
  refine ⟨?_, h.1 rfl rfl ?_, h.2.1 rfl rfl rfl, h.2.2 rfl rfl⟩
  · rw [distanceChanged_localStorage]
    show (some (ratHost.numberToString ((0 : ℚ) + 5)) : Option String) = some "5"
    rw [zero_add]
    rfl
  · rw [h5]
    rfl

/-- C7 at a page whose storage holds a stale value, with the default configuration. -/
theorem C7_witness :
    staleStorage "mouseTracker-distanceTraveled" = some "123" ∧
    (MouseTracker.new ratHost [] (Page.load staleStorage)).config "remember_user" = .bool false ∧
    (MouseTracker.new ratHost [] (Page.load staleStorage)).page.localStorage
      "mouseTracker-distanceTraveled" = none ∧
    (MouseTracker.new ratHost [] (Page.load staleStorage)).self.actualDistance = 0 := by
  have h := C7_not_remembering_deletes_key ratHost [] (Page.load staleStorage) rfl
  exact ⟨rfl, rfl, h.1, h.2.2⟩

/-- C8 at the events `(0,0), (3,4), (3,4)` on a tracker with a callback and the unit
`mm`: two invocations, the second with gain 0. -/
theorem C8_witness :
    callbackTracker.self.trackingManager.firstMove = false ∧
    callbackTracker.config "onDistanceChanged" = .func 7 ∧
    callbackTracker.config "distanceUnits" = .str "mm" ∧
    ∃ r : ℚ,
      (∀ x : ℚ, Utility.convertPixelsToDistanceUnits x (callbackTracker.config "distanceUnits") =
        .ok (x * r)) ∧
      (mousemoves ratHost ((List.range 3).map path345) callbackTracker).page.calls =
        callbackTracker.page.calls ++ (List.range 2).map (fun k =>
          (7, (mousemoves ratHost ((List.range (k + 2)).map path345) callbackTracker).self.actualDistance * r,
            Utility.computeDistance ratHost (path345 k) (path345 (k + 1)) * r)) ∧
      (mousemoves ratHost ((List.range 3).map path345) callbackTracker).page.calls.length =
        callbackTracker.page.calls.length + 2 := by
  obtain ⟨r, h1, h2, h3, -⟩ :=
    C8_callback_once_per_later_move ratHost callbackTracker 7 path345 2 rfl rfl (Or.inl rfl)
  exact ⟨rfl, rfl, rfl, r, h1, h2, h3⟩

/-- On the host `ratHost`, the distance between two points whose squared distance is
the square `r * r` of a rational `r` that is at least 0, and is read back from its
text, is `r`. -/
theorem ratHost_distance_of (a b : Point ℚ) (m r : ℚ)
    (hsq : (a.x - b.x) ^ 2 + (a.y - b.y) ^ 2 = m)
    (hpf : ratHost.parseFloat (ratHost.numberToString m) = m)
    (hr : m = r * r) (hr0 : 0 ≤ r) :
    Utility.computeDistance ratHost a b = r := by
  unfold Utility.computeDistance
  rw [hsq, hpf, hr]
  show Rat.sqrt (r * r) = r
  rw [Rat.sqrt_eq, abs_of_nonneg hr0]

/-- On the host `ratHost`, `Math.sqrt(parseFloat(0))` is 0. -/
theorem ratHost_root_zero : ratHost.sqrt (ratHost.parseFloat (ratHost.numberToString 0)) = 0 := by
  have h := ratHost_distance_of ⟨0, 0⟩ ⟨0, 0⟩ 0 0 (by norm_num) rfl (by norm_num) (le_refl 0)
  simpa [Utility.computeDistance] using h

/-- The unit of `badUnitTracker` is not `mm`. -/
theorem badUnit_ne_mm : badUnitTracker.config "distanceUnits" ≠ .str "mm" := by
  show (JSVal.str "cm" : JSVal ℚ) ≠ .str "mm"
  exact fun h => absurd (JSVal.str.inj h) (by decide)

/-- The unit of `badUnitTracker` is not `inch`. -/
theorem badUnit_ne_inch : badUnitTracker.config "distanceUnits" ≠ .str "inch" := by
  show (JSVal.str "cm" : JSVal ℚ) ≠ .str "inch"
  exact fun h => absurd (JSVal.str.inj h) (by decide)

/-- The entry `onDistanceChanged` of `badUnitTracker` is not `false`. -/
theorem badUnit_callback : badUnitTracker.config "onDistanceChanged" ≠ .bool false := by
  show (JSVal.func 7 : JSVal ℚ) ≠ .bool false
  exact fun h => JSVal.noConfusion h

/-- C11 at a tracker with a callback and the unit `cm`. -/
theorem C11_witness :
    badUnitTracker.config "distanceUnits" = .str "cm" ∧
    (API.getDistanceTraveled badUnitTracker).1 = .error .distanceUnitsNotCorrect ∧
    (mousemove ratHost ⟨3, 4⟩ badUnitTracker).1 = .error .distanceUnitsNotCorrect ∧
    (mousemove ratHost ⟨3, 4⟩ badUnitTracker).2.page.calls = badUnitTracker.page.calls := by
  have h := C11_conversion_error_propagates ratHost badUnitTracker ⟨3, 4⟩
    badUnit_ne_mm badUnit_ne_inch
  exact ⟨rfl, h.1, (h.2 rfl badUnit_callback).1, (h.2 rfl badUnit_callback).2⟩

/-- C12 at the move from `(0,0)` to `(3,4)` on the host `ratHost`. -/
theorem C12_witness :
    (∀ x : ℚ, 0 ≤ ratHost.sqrt x) ∧
    (∀ gain : ℚ,
      (TrackingManager.handleMouseMove ratHost ⟨3, 4⟩ movedTracker.self.trackingManager).2 =
        some gain → 0 ≤ gain) ∧
    movedTracker.self.actualDistance ≤
      (mousemove ratHost ⟨3, 4⟩ movedTracker).2.self.actualDistance :=
  ⟨Rat.sqrt_nonneg, C12_total_never_decreases ratHost movedTracker ⟨3, 4⟩ Rat.sqrt_nonneg⟩

/-- C14 at the point `(3,4)` on the host `ratHost`. -/
theorem C14_witness :
    ratHost.sqrt (ratHost.parseFloat (ratHost.numberToString 0)) = 0 ∧
    Utility.computeDistance ratHost ⟨3, 4⟩ ⟨3, 4⟩ = 0 :=
  ⟨ratHost_root_zero, C14_computeDistance_self_zero ratHost ⟨3, 4⟩ ratHost_root_zero⟩

/-- C15 at 96 pixels, the factor 2 and the unit `inch`. -/
theorem C15_witness :
    ∃ d : ℚ, Utility.convertPixelsToDistanceUnits (96 : ℚ) (.str "inch") = .ok d ∧
      Utility.convertPixelsToDistanceUnits (2 * 96 : ℚ) (.str "inch") = .ok (2 * d) :=
  C15_conversion_linear 96 2 (.str "inch") (Or.inr rfl)

/-- The total of `movedTracker` after the move to `(3,4)` is 5. -/
theorem movedTracker_after_3_4 :
    (mousemove ratHost ⟨3, 4⟩ movedTracker).2.self.actualDistance = 5 := by
  rw [mousemove_actualDistance,
    if_pos (show movedTracker.self.trackingManager.firstMove = true from rfl)]
  show (0 : ℚ) + Utility.computeDistance ratHost ⟨0, 0⟩ ⟨3, 4⟩ = 5
  rw [ratHost_distance_3_4, zero_add]

/-- C16 on the host `ratHost`: after construction over a storage holding `123`, after
the move from `(0,0)` to `(3,4)`, and after a clear, the stored value is the total. -/
theorem C16_witness :
    (MouseTracker.new ratHost [("remember_user", .bool true)]
      (Page.load staleStorage)).self.actualDistance = 123 ∧
    storedTotal ratHost
      (MouseTracker.new ratHost [("remember_user", .bool true)] (Page.load staleStorage)) =
        (MouseTracker.new ratHost [("remember_user", .bool true)]
          (Page.load staleStorage)).self.actualDistance ∧
    storedTotal ratHost (mousemove ratHost ⟨3, 4⟩ movedTracker).2 =
      (mousemove ratHost ⟨3, 4⟩ movedTracker).2.self.actualDistance ∧
    storedTotal ratHost (API.clearDistanceTraveled ratHost movedTracker) =
      (API.clearDistanceTraveled ratHost movedTracker).self.actualDistance ∧
    StorageManager.getKey "distanceTraveled"
      (mousemove ratHost ⟨3, 4⟩ movedTracker).2.page.localStorage =
        some (ratHost.numberToString (movedTracker.self.actualDistance +
          Utility.computeDistance ratHost movedTracker.self.trackingManager.lastMousePosition
            ⟨3, 4⟩)) := by
  have h := C16_persisted_value_mirrors_total ratHost [("remember_user", .bool true)]
    (Page.load staleStorage) movedTracker ⟨3, 4⟩
  refine ⟨rfl, h.1 rfl, h.2.1 rfl rfl ?_, h.2.2.1 rfl ?_, h.2.2.2.2 rfl rfl⟩
  · rw [movedTracker_after_3_4]
    rfl
  · rw [API.clearDistanceTraveled, clear_self]
    rfl

/-- C17 at the key `theme`, which is not the key of the tracker. -/
theorem C17_witness :
    "theme" ≠ "mouseTracker-distanceTraveled" ∧
    (MouseTracker.new ratHost [] (Page.load staleStorage)).page.localStorage "theme" =
      (Page.load staleStorage : Page ℚ).localStorage "theme" ∧
    (mousemove ratHost ⟨3, 4⟩ movedTracker).2.page.localStorage "theme" =
      movedTracker.page.localStorage "theme" ∧
    (API.clearDistanceTraveled ratHost movedTracker).page.localStorage "theme" =
      movedTracker.page.localStorage "theme" := by
  have h := C17_only_the_own_key_is_touched ratHost [] (Page.load staleStorage) movedTracker
    ⟨3, 4⟩ "theme" (by decide)
  exact ⟨by decide, h.1, h.2.1, h.2.2.1⟩

/-- C19, as amended, at the path `(0,0), (3,4), (0,8)`, whose two steps have length 5
each and whose ends are 8 apart, and at its first step alone. -/
theorem C19_witness :
    Utility.computeDistance ratHost (path8 0) (path8 2) = 8 ∧
    Utility.computeDistance ratHost (path8 0) (path8 2) ≤
      (mousemoves ratHost ((List.range (2 + 1)).map path8)
        (MouseTracker.new ratHost [] (Page.load emptyStorage))).self.actualDistance ∧
    (mousemoves ratHost ((List.range (1 + 1)).map path8)
      (MouseTracker.new ratHost [] (Page.load emptyStorage))).self.actualDistance =
        Utility.computeDistance ratHost (path8 0) (path8 1) := by
  have d01 : Utility.computeDistance ratHost ⟨0, 0⟩ ⟨3, 4⟩ = 5 := ratHost_distance_3_4
  have d12 : Utility.computeDistance ratHost ⟨3, 4⟩ ⟨0, 8⟩ = 5 :=
    ratHost_distance_of _ _ 25 5 (by norm_num) rfl (by norm_num) (by norm_num)
  have d02 : Utility.computeDistance ratHost ⟨0, 0⟩ ⟨0, 8⟩ = 8 :=
    ratHost_distance_of _ _ 64 8 (by norm_num) rfl (by norm_num) (by norm_num)
  refine ⟨d02, (C19_exact_path_length_dominates_displacement ratHost [] (Page.load emptyStorage)
    path8 2 rfl).2 ?_ ?_, (C19_exact_path_length_dominates_displacement ratHost []
    (Page.load emptyStorage) path8 1 rfl).1 (le_refl 1) ratHost_root_zero⟩
  · intro i hi
    interval_cases i
    · show 0 ≤ Utility.computeDistance ratHost ⟨0, 0⟩ ⟨3, 4⟩ ∧
        Utility.computeDistance ratHost ⟨0, 0⟩ ⟨3, 4⟩ ^ 2 = ((0 : ℚ) - 3) ^ 2 + ((0 : ℚ) - 4) ^ 2
      rw [d01]
      norm_num
    · show 0 ≤ Utility.computeDistance ratHost ⟨3, 4⟩ ⟨0, 8⟩ ∧
        Utility.computeDistance ratHost ⟨3, 4⟩ ⟨0, 8⟩ ^ 2 = ((3 : ℚ) - 0) ^ 2 + ((4 : ℚ) - 8) ^ 2
      rw [d12]
      norm_num
  · show Utility.computeDistance ratHost ⟨0, 0⟩ ⟨0, 8⟩ ^ 2 = ((0 : ℚ) - 0) ^ 2 + ((0 : ℚ) - 8) ^ 2
    rw [d02]
    norm_num

/-- C20 at the move from `(0,0)` to `(3,4)` on a remembering tracker with a callback
and the unit `cm`: the move throws, the total is 5 more, and the key holds its text. -/
theorem C20_witness :
    (mousemove ratHost ⟨3, 4⟩ badUnitTracker).1 = .error .distanceUnitsNotCorrect ∧
    (mousemove ratHost ⟨3, 4⟩ badUnitTracker).2.self.actualDistance =
      badUnitTracker.self.actualDistance + 5 ∧
    (mousemove ratHost ⟨3, 4⟩ badUnitTracker).2.self.trackingManager.lastMousePosition = ⟨3, 4⟩ ∧
    StorageManager.getKey "distanceTraveled"
      (mousemove ratHost ⟨3, 4⟩ badUnitTracker).2.page.localStorage =
        some (ratHost.numberToString (badUnitTracker.self.actualDistance + 5)) := by
  have h := C20_failing_move_is_not_atomic ratHost badUnitTracker ⟨0, 0⟩ ⟨3, 4⟩ rfl rfl
    badUnit_callback badUnit_ne_mm badUnit_ne_inch
  rw [ratHost_distance_3_4] at h
  exact ⟨h.1, h.2.1, h.2.2.1, h.2.2.2 rfl⟩

/-! ## The binary64 reading at concrete inputs -/

set_option maxRecDepth 100000

/-- The ratio for millimetres in binary64, `2.54 / 96 * 10`. -/
theorem f64_ratio_mm :
    F64.mul (F64.div (F64.ofDecimal 254 2) (F64.ofNat 96)) (F64.ofNat 10) =
      ⟨4766309605633775, -54⟩ := by
  decide

/-- Known binary64 values, as the definitions compute them: the literal `2.54` is
`0x1.451eb851eb852p+1`; 96 pixels convert to the literal `25.4` in millimetres and to
1 in inches; the root of 25 is 5; the root of 2 is `0x1.6a09e667f3bcdp+0`. -/
theorem f64_known_values :
    F64.ofDecimal 254 2 = ⟨0x1451eb851eb852, -51⟩ ∧
    F64.convertPixelsToDistanceUnits (F64.ofNat 96) (.str "mm") = .ok (F64.ofDecimal 254 1) ∧
    F64.convertPixelsToDistanceUnits (F64.ofNat 96) (.str "inch") = .ok (F64.ofNat 1) ∧
    F64.sqrt (F64.ofNat 25) = F64.ofNat 5 ∧
    F64.sqrt (F64.ofNat 2) = ⟨0x16a09e667f3bcd, -52⟩ := by
  have hmm : F64.mul (F64.ofNat 96) ⟨4766309605633775, -54⟩ = F64.ofDecimal 254 1 := by decide
  have hinch : F64.mul (F64.ofNat 96)
      (F64.div ⟨4766309605633775, -54⟩ (F64.ofDecimal 254 1)) = F64.ofNat 1 := by decide
  have hne : ¬ ("inch" = "mm") := by decide
  refine ⟨by decide, ?_, ?_, by decide, by decide⟩
  · simp only [F64.convertPixelsToDistanceUnits, if_true, f64_ratio_mm, hmm]
  · simp only [F64.convertPixelsToDistanceUnits, hne, if_true, if_false, f64_ratio_mm, hinch]

/-- On the host `binary64Host`, the distance between two points whose squared distance
is the number `m`, read back from its text, is the binary64 root of `m`. -/
theorem binary64Host_distance_of (a b : Point ℚ) (m : ℚ) (c : F64)
    (hsq : (a.x - b.x) ^ 2 + (a.y - b.y) ^ 2 = m)
    (hpf : ratHost.parseFloat (ratHost.numberToString m) = m)
    (hc : F64.sqrt (F64.round m.num m.den 0) = c) :
    Utility.computeDistance binary64Host a b = c.toRat := by
  unfold Utility.computeDistance
  rw [hsq]
  show (F64.sqrt (F64.round (ratHost.parseFloat (ratHost.numberToString m)).num
    (ratHost.parseFloat (ratHost.numberToString m)).den 0)).toRat = c.toRat
  rw [hpf, hc]

/-- C15 fails in binary64 at `k = 3`, `p = 3` and the unit `mm`: the conversion of 3
is `7149464408450662 * 2 ^ -53` (printed `0.79375`), the conversion of `3 * 3` is
`5362098306337997 * 2 ^ -51` (printed `2.38125`), and 3 times the conversion of 3 is
`5362098306337996 * 2 ^ -51` (printed `2.3812499999999996`), one unit in the last
place less. -/
theorem C15_binary64_counterexample :
    F64.mul (F64.ofNat 3) (F64.ofNat 3) = F64.ofNat 9 ∧
    F64.convertPixelsToDistanceUnits (F64.ofNat 3) (.str "mm") =
      .ok ⟨7149464408450662, -53⟩ ∧
    F64.convertPixelsToDistanceUnits (F64.mul (F64.ofNat 3) (F64.ofNat 3)) (.str "mm") =
      .ok ⟨5362098306337997, -51⟩ ∧
    F64.mul (F64.ofNat 3) ⟨7149464408450662, -53⟩ = ⟨5362098306337996, -51⟩ ∧
    (⟨5362098306337996, -51⟩ : F64).toRat < (⟨5362098306337997, -51⟩ : F64).toRat ∧
    (2.3812499999999995 < (⟨5362098306337996, -51⟩ : F64).toRat ∧
      (⟨5362098306337996, -51⟩ : F64).toRat < 2.3812499999999997) ∧
    (2.3812499999999999 < (⟨5362098306337997, -51⟩ : F64).toRat ∧
      (⟨5362098306337997, -51⟩ : F64).toRat < 2.3812500000000001) ∧
    ¬ ∃ d : F64,
      F64.convertPixelsToDistanceUnits (F64.ofNat 3) (.str "mm") = .ok d ∧
      F64.convertPixelsToDistanceUnits (F64.mul (F64.ofNat 3) (F64.ofNat 3)) (.str "mm") =
        .ok (F64.mul (F64.ofNat 3) d) := by
  have h3 : F64.mul (F64.ofNat 3) ⟨4766309605633775, -54⟩ = ⟨7149464408450662, -53⟩ := by
    decide
  have h9 : F64.mul (F64.mul (F64.ofNat 3) (F64.ofNat 3)) ⟨4766309605633775, -54⟩ =
      ⟨5362098306337997, -51⟩ := by
    decide
  have h33 : F64.mul (F64.ofNat 3) ⟨7149464408450662, -53⟩ = ⟨5362098306337996, -51⟩ := by
    decide
  have c3 : F64.convertPixelsToDistanceUnits (F64.ofNat 3) (.str "mm") =
      .ok ⟨7149464408450662, -53⟩ := by
    simp only [F64.convertPixelsToDistanceUnits, if_true, f64_ratio_mm, h3]
  have c9 : F64.convertPixelsToDistanceUnits (F64.mul (F64.ofNat 3) (F64.ofNat 3))
      (.str "mm") = .ok ⟨5362098306337997, -51⟩ := by
    simp only [F64.convertPixelsToDistanceUnits, if_true, f64_ratio_mm, h9]
  refine ⟨by decide, c3, c9, h33, by norm_num [F64.toRat], by norm_num [F64.toRat],
    by norm_num [F64.toRat], ?_⟩
  rintro ⟨d, hd, hkd⟩
  rw [c3] at hd
  rw [c9, ← Except.ok.inj hd, h33] at hkd
  exact absurd (Except.ok.inj hkd) (by decide)

/-- C19 fails in binary64 at the events `(0,0), (1,1), (4,4)`: the two gains are the
binary64 roots of 2 and of 18, the distance between the ends is the binary64 root
of 32 (printed `5.656854249492381`), and the total is less: the exact sum of the
two gains is, and so is the sum as `+=` rounds it, `6369051672525772 * 2 ^ -50`
(printed `5.65685424949238`). -/
theorem C19_binary64_counterexample :
    Utility.computeDistance binary64Host (pathDiag 0) (pathDiag 1) =
      6369051672525773 / 2 ^ 52 ∧
    Utility.computeDistance binary64Host (pathDiag 1) (pathDiag 2) =
      4776788754394329 / 2 ^ 50 ∧
    Utility.computeDistance binary64Host (pathDiag 0) (pathDiag 2) =
      6369051672525773 / 2 ^ 50 ∧
    (MouseTracker.new binary64Host [] (Page.load emptyStorage)).self.actualDistance = 0 ∧
    (mousemoves binary64Host ((List.range (2 + 1)).map pathDiag)
      (MouseTracker.new binary64Host [] (Page.load emptyStorage))).self.actualDistance <
        Utility.computeDistance binary64Host (pathDiag 0) (pathDiag 2) ∧
    F64.add (F64.add (F64.ofNat 0) ⟨6369051672525773, -52⟩) ⟨4776788754394329, -50⟩ =
      ⟨6369051672525772, -50⟩ ∧
    (⟨6369051672525772, -50⟩ : F64).toRat <
      Utility.computeDistance binary64Host (pathDiag 0) (pathDiag 2) ∧
    (5.6568542494923795 < (⟨6369051672525772, -50⟩ : F64).toRat ∧
      (⟨6369051672525772, -50⟩ : F64).toRat < 5.6568542494923805) ∧
    (5.6568542494923805 < (⟨6369051672525773, -50⟩ : F64).toRat ∧
      (⟨6369051672525773, -50⟩ : F64).toRat < 5.6568542494923815) := by
  have d01 : Utility.computeDistance binary64Host ⟨0, 0⟩ ⟨1, 1⟩ = 6369051672525773 / 2 ^ 52 := by
    rw [binary64Host_distance_of _ _ 2 ⟨6369051672525773, -52⟩ (by norm_num) rfl (by decide)]
    norm_num [F64.toRat]
  have d12 : Utility.computeDistance binary64Host ⟨1, 1⟩ ⟨4, 4⟩ = 4776788754394329 / 2 ^ 50 := by
    rw [binary64Host_distance_of _ _ 18 ⟨4776788754394329, -50⟩ (by norm_num) rfl (by decide)]
    norm_num [F64.toRat]
  have d02 : Utility.computeDistance binary64Host ⟨0, 0⟩ ⟨4, 4⟩ = 6369051672525773 / 2 ^ 50 := by
    rw [binary64Host_distance_of _ _ 32 ⟨6369051672525773, -50⟩ (by norm_num) rfl (by decide)]
    norm_num [F64.toRat]
  have h0 : (MouseTracker.new binary64Host [] (Page.load emptyStorage)).self.actualDistance = 0 :=
    rfl
  have e0 : pathDiag 0 = ⟨0, 0⟩ := rfl
  have e1 : pathDiag 1 = ⟨1, 1⟩ := rfl
  have e2 : pathDiag 2 = ⟨4, 4⟩ := rfl
  refine ⟨by rw [e0, e1, d01], by rw [e1, e2, d12], by rw [e0, e2, d02], h0, ?_, by decide, ?_,
    by norm_num [F64.toRat], by norm_num [F64.toRat]⟩
  · rw [self_after_moves binary64Host pathDiag _ (new_firstMove _ _ _) 2, h0,
      Finset.sum_range_succ, Finset.sum_range_one, e0, e1, e2, d01, d12, d02]
    norm_num
  · rw [e0, e2, d02]
    norm_num [F64.toRat]

end MouseTrackerJS
